import Mathlib

/-
Verification of the ParkEase booking / payment reconciliation engine.

The definitions below are a shallow embedding of the backend controllers and
model methods:
  - booking.model.js            (isSlotAvailable, canBeCancelled, status enum)
  - payment.controller.js       (createPaymentOrder, verifyPayment, webhook,
                                 handleSuccessfulPayment, handleFailedPayment,
                                 handleRefund)
  - parking.model.js            (pre-save hook, calcAvailableSlots, post-save hook)
  - admin.controller.js         (updateBooking)

Modelling conventions:
  - Timestamps are integers (milliseconds since the epoch); the payment
    gateway reports created_at in seconds, and the handlers multiply by 1000
    exactly as the source does.  The floating-point hour division in
    canBeCancelled is modelled with exact rationals.
  - Mongo documents are modelled as Lean structures at the level the
    controllers (and the repository test suite) manipulate them: the payment
    sub-record is a record of optional fields, holding both the declared
    schema fields and the gateway fields the controllers store on it (the
    tests persist and read back payment.orderId, payment.paidAt, ...).
    A plain save persists the document as assigned.
  - findOneAndUpdate updates the first matching document.  When the source
    passes runValidators: true, the declared enum validator on the booking
    status path is enforced: an update writing a status value outside the
    schema enum throws, the surrounding try/catch logs it, and the database
    is left unchanged.  Calls without that option do not validate.
  - HMAC-SHA256 is external to the repository, so the functions that use it
    take the mac function as a parameter.
-/

namespace ParkEase

/-- Payment sub-record of a booking (bookingSchema.payment), extended with the
gateway fields the payment controller and the test suite store on it. -/
structure Payment where
  method : Option String := none
  status : Option String := none
  transactionId : Option String := none
  paymentIntentId : Option String := none
  receiptUrl : Option String := none
  orderId : Option String := none
  paymentId : Option String := none
  paidAt : Option Int := none
  failedAt : Option Int := none
  errorMsg : Option String := none
  refundId : Option String := none
  refundStatus : Option String := none
  refundedAt : Option Int := none
  refundRequestedAt : Option Int := none
  amount : Option Int := none
  currency : Option String := none
  deriving Repr, DecidableEq

/-- Booking document (bookingSchema): the fields the verified controllers
read or write. -/
structure Booking where
  id : String
  user : String
  parking : String
  slot : String
  startTime : Int
  endTime : Int
  status : String
  amount : Int
  payment : Payment
  deriving Repr, DecidableEq

/-- A slot entry of a parking document: identity and status, the two fields
the payment controller touches through Parking.updateOne. -/
structure Slot where
  id : String
  status : String
  deriving Repr, DecidableEq

/-- The slice of the database the webhook handlers operate on: the booking
collection and the slot entries of the parking collection. -/
structure DB where
  bookings : List Booking
  slots : List Slot
  deriving Repr, DecidableEq

/-- The status enum declared on bookingSchema.status:
enum: [pending, confirmed, cancelled, completed, no-show]. -/
def bookingStatusEnum : List String :=
  ["pending", "confirmed", "cancelled", "completed", "no-show"]

/-- Whether an update writing the given value to booking.status passes the
declared enum validator (checked when the source passes runValidators). -/
def statusUpdateValid (s : String) : Bool :=
  bookingStatusEnum.contains s

/-! ## isSlotAvailable (booking.model.js, statics.isSlotAvailable)

The static method runs the find query
  slot = slotId, status in [pending, confirmed],
  OR of: (startTime < endTime2 AND endTime > startTime2),
         (startTime >= startTime2 AND startTime < endTime2)
optionally excluding one booking id, and reports the slot available when no
booking matches. -/

/-- The per-document match predicate of the isSlotAvailable query.
Here s and e are the requested window bounds. -/
def slotQueryMatches (slotId : String) (s e : Int) (excludeId : Option String)
    (b : Booking) : Bool :=
  b.slot == slotId &&
  (b.status == "pending" || b.status == "confirmed") &&
  ((b.startTime < e && b.endTime > s) || (b.startTime ≥ s && b.startTime < e)) &&
  (match excludeId with
   | some i => b.id != i
   | none => true)

/-- Booking.isSlotAvailable: true when no active booking on the slot matches
the overlap query. -/
def isSlotAvailable (slotId : String) (s e : Int) (excludeId : Option String)
    (bookings : List Booking) : Bool :=
  (bookings.filter (slotQueryMatches slotId s e excludeId)).length == 0

/-- Pointwise: for a booking whose interval is non-degenerate, the query
disjunction is exactly the half-open interval overlap condition. -/
lemma slotQueryMatches_iff_overlap (slotId : String) (s e : Int) (b : Booking)
    (hb : b.startTime < b.endTime) :
    slotQueryMatches slotId s e none b = true ↔
      (b.slot = slotId ∧ (b.status = "pending" ∨ b.status = "confirmed") ∧
        b.startTime < e ∧ s < b.endTime) := by
  simp only [slotQueryMatches, Bool.and_eq_true, Bool.or_eq_true, beq_iff_eq,
    decide_eq_true_eq]
  constructor
  · rintro ⟨⟨⟨hslot, hstatus⟩, hor⟩, -⟩
    refine ⟨hslot, hstatus, ?_⟩
    rcases hor with ⟨h1, h2⟩ | ⟨h1, h2⟩ <;> omega
  · rintro ⟨hslot, hstatus, h1, h2⟩
    exact ⟨⟨⟨hslot, hstatus⟩, Or.inl ⟨h1, h2⟩⟩, trivial⟩

/-- C1: For every slot and requested window [s, e), isSlotAvailable returns
available exactly when no pending or confirmed booking on the slot has an
interval [s1, e1) with s1 < e and s < e1 (half-open semantics: a booking
ending exactly at s, or starting exactly at e, does not conflict).  The
hypothesis is the schema validator endTime > startTime on stored bookings. -/
theorem isSlotAvailable_iff_no_overlap (bookings : List Booking)
    (slotId : String) (s e : Int)
    (hwf : ∀ b ∈ bookings, b.startTime < b.endTime) :
    isSlotAvailable slotId s e none bookings = true ↔
      ∀ b ∈ bookings,
        ¬(b.slot = slotId ∧ (b.status = "pending" ∨ b.status = "confirmed") ∧
          b.startTime < e ∧ s < b.endTime) := by
  unfold isSlotAvailable
  rw [beq_iff_eq, List.length_eq_zero, List.filter_eq_nil_iff]
  constructor
  · intro h b hb
    rw [← slotQueryMatches_iff_overlap slotId s e b (hwf b hb)]
    simpa using h b hb
  · intro h b hb
    have := h b hb
    rw [← slotQueryMatches_iff_overlap slotId s e b (hwf b hb)] at this
    simpa using this

/-- A concrete instance of the availability theorem: one confirmed booking on
slot S over [10:00, 11:00) (in ms), queried for [10:30, 11:30). -/
theorem isSlotAvailable_iff_no_overlap_witness :
    (∀ b ∈ [Booking.mk "A" "u1" "P" "S" 36000000 39600000 "confirmed" 50 {}],
        b.startTime < b.endTime) ∧
    (isSlotAvailable "S" 37800000 41400000 none
        [Booking.mk "A" "u1" "P" "S" 36000000 39600000 "confirmed" 50 {}] = true ↔
      ∀ b ∈ [Booking.mk "A" "u1" "P" "S" 36000000 39600000 "confirmed" 50 {}],
        ¬(b.slot = "S" ∧ (b.status = "pending" ∨ b.status = "confirmed") ∧
          b.startTime < 41400000 ∧ 37800000 < b.endTime)) :=
  ⟨by decide,
    isSlotAvailable_iff_no_overlap
      [Booking.mk "A" "u1" "P" "S" 36000000 39600000 "confirmed" 50 {}]
      "S" 37800000 41400000 (by decide)⟩

/-! ## verifyPayment (payment.controller.js)

The controller loads the booking, checks the caller owns it (or is admin),
recomputes the HMAC over orderId followed by a bar and paymentId, rejects on
mismatch, and on match marks the booking confirmed and the payment completed,
stamping paymentId and paidAt with the current time.  It is modelled as a
function returning the error (if any) together with the resulting booking
state; on any error the booking is returned unchanged, since the source
returns before saving. -/

/-- verifyPayment, with the HMAC function and the server secret as
parameters and now the call time in ms. -/
def verifyPayment (hmac : String → String → String) (secret : String)
    (uid role orderId paymentId signature : String) (now : Int)
    (b : Booking) : Option String × Booking :=
  if ¬(b.user = uid ∨ role = "admin") then
    (some "You are not authorized to verify this payment", b)
  else
    if hmac secret (orderId ++ "|" ++ paymentId) ≠ signature then
      (some "Invalid payment signature", b)
    else
      (none,
        { b with
            status := "confirmed",
            payment :=
              { b.payment with
                  status := some "completed",
                  paymentId := some paymentId,
                  paidAt := some now } })

/-- C3: verifyPayment fails with the invalid-signature error exactly when the
recomputed HMAC over orderId, a bar, and paymentId differs from the supplied
signature; on that failure the booking is unchanged, and on a match it sets
booking.status to confirmed and payment.status to completed. -/
theorem verifyPayment_signature_spec
    (hmac : String → String → String) (secret uid role oid pid sig : String)
    (now : Int) (b : Booking) (hauth : b.user = uid ∨ role = "admin") :
    ((verifyPayment hmac secret uid role oid pid sig now b).1 =
        some "Invalid payment signature" ↔
      hmac secret (oid ++ "|" ++ pid) ≠ sig) ∧
    (hmac secret (oid ++ "|" ++ pid) ≠ sig →
      (verifyPayment hmac secret uid role oid pid sig now b).2 = b) ∧
    (hmac secret (oid ++ "|" ++ pid) = sig →
      (verifyPayment hmac secret uid role oid pid sig now b).1 = none ∧
      (verifyPayment hmac secret uid role oid pid sig now b).2.status =
        "confirmed" ∧
      (verifyPayment hmac secret uid role oid pid sig now b).2.payment.status =
        some "completed") := by
  by_cases hs : hmac secret (oid ++ "|" ++ pid) = sig
  · refine ⟨?_, fun h => absurd hs h, fun _ => ?_⟩
    · simp [verifyPayment, hauth, hs]
    · simp [verifyPayment, hauth, hs]
  · refine ⟨?_, fun _ => ?_, fun h => absurd h hs⟩
    · simp [verifyPayment, hauth, hs]
    · simp [verifyPayment, hauth, hs]

/-- A fixed mac used to instantiate the theorems on concrete inputs: it
returns the message itself, so a signature matches exactly when it equals
the signed text. -/
def idHmac (_secret msg : String) : String := msg

/-- A concrete pending booking used by several instantiations. -/
def bPend : Booking :=
  { id := "b1", user := "u1", parking := "P", slot := "S",
    startTime := 0, endTime := 3600000, status := "pending", amount := 50,
    payment := { method := some "card", status := some "pending",
                 orderId := some "o1" } }

/-- The signature specification instantiated on a concrete booking with a
mismatched signature. -/
theorem verifyPayment_signature_spec_witness :
    (bPend.user = "u1" ∨ "user" = "admin") ∧
    (((verifyPayment idHmac "sec" "u1" "user" "o1" "p1" "bad" 5 bPend).1 =
        some "Invalid payment signature" ↔
      idHmac "sec" ("o1" ++ "|" ++ "p1") ≠ "bad") ∧
    (idHmac "sec" ("o1" ++ "|" ++ "p1") ≠ "bad" →
      (verifyPayment idHmac "sec" "u1" "user" "o1" "p1" "bad" 5 bPend).2 =
        bPend) ∧
    (idHmac "sec" ("o1" ++ "|" ++ "p1") = "bad" →
      (verifyPayment idHmac "sec" "u1" "user" "o1" "p1" "bad" 5 bPend).1 =
        none ∧
      (verifyPayment idHmac "sec" "u1" "user" "o1" "p1" "bad" 5
          bPend).2.status = "confirmed" ∧
      (verifyPayment idHmac "sec" "u1" "user" "o1" "p1" "bad" 5
          bPend).2.payment.status = some "completed")) :=
  ⟨by decide,
    verifyPayment_signature_spec idHmac "sec" "u1" "user" "o1" "p1" "bad" 5
      bPend (by decide)⟩

/-! ## Webhook handlers (payment.controller.js)

The three helpers locate a booking with findOneAndUpdate (first matching
document) and, for payment.captured and refund.processed, follow up with a
Parking.updateOne on the positional slot entry (first matching slot). -/

/-- Gateway payment entity of a payment.captured / payment.failed event. -/
structure PaymentEntity where
  id : String
  order_id : String
  created_at : Int
  error_description : Option String := none
  deriving Repr, DecidableEq

/-- Gateway refund entity of a refund.processed event. -/
structure RefundEntity where
  id : String
  payment_id : String
  status : String
  created_at : Int
  deriving Repr, DecidableEq

/-- findOneAndUpdate: update the first document matching q with f, returning
the new list and (with the new: true option) the updated document. -/
def findOneAndUpdate (q : Booking → Bool) (f : Booking → Booking) :
    List Booking → List Booking × Option Booking
  | [] => ([], none)
  | b :: bs =>
    if q b then (f b :: bs, some (f b))
    else
      let r := findOneAndUpdate q f bs
      (b :: r.1, r.2)

/-- Parking.updateOne with a positional slots filter: set the status of the
first slot entry with the given id. -/
def updateOneSlot (slotId newStatus : String) : List Slot → List Slot
  | [] => []
  | s :: ss =>
    if s.id = slotId then { s with status := newStatus } :: ss
    else s :: updateOneSlot slotId newStatus ss

/-- The update document of handleSuccessfulPayment: payment completed,
paymentId and paidAt from the payload, booking confirmed. -/
def capturedUpdate (p : PaymentEntity) (b : Booking) : Booking :=
  { b with
      status := "confirmed",
      payment :=
        { b.payment with
            status := some "completed",
            paymentId := some p.id,
            paidAt := some (p.created_at * 1000) } }

/-- handleSuccessfulPayment: locate the booking by payment.orderId, apply the
confirmed update (runValidators passes, confirmed is in the enum), then mark
the booking slot reserved. -/
def handleSuccessfulPayment (p : PaymentEntity) (db : DB) : DB :=
  if statusUpdateValid "confirmed" then
    let r := findOneAndUpdate (fun b => b.payment.orderId == some p.order_id)
      (capturedUpdate p) db.bookings
    match r.2 with
    | some b => { bookings := r.1, slots := updateOneSlot b.slot "reserved" db.slots }
    | none => { db with bookings := r.1 }
  else db

/-- The update document of handleFailedPayment: payment failed with failure
time and reason, booking cancelled.  No status guard appears in the source. -/
def failedUpdate (p : PaymentEntity) (b : Booking) : Booking :=
  { b with
      status := "cancelled",
      payment :=
        { b.payment with
            status := some "failed",
            failedAt := some (p.created_at * 1000),
            errorMsg := some (p.error_description.getD "Payment failed") } }

/-- handleFailedPayment: locate the booking by payment.orderId and apply the
cancelled update unconditionally; the parking document is not touched. -/
def handleFailedPayment (p : PaymentEntity) (db : DB) : DB :=
  { db with
      bookings := (findOneAndUpdate
        (fun b => b.payment.orderId == some p.order_id)
        (failedUpdate p) db.bookings).1 }

/-- The update document of handleRefund as written in the source: refund
metadata on the payment sub-record (payment.status itself is not assigned)
and booking.status set to refunded. -/
def refundUpdate (r : RefundEntity) (b : Booking) : Booking :=
  { b with
      status := "refunded",
      payment :=
        { b.payment with
            refundId := some r.id,
            refundStatus := some r.status,
            refundedAt := some (r.created_at * 1000) } }

/-- handleRefund: the findOneAndUpdate call passes runValidators, and its
update writes refunded into booking.status, a value the schema enum does not
contain; the update is rejected, the catch block logs it, and the database is
unchanged.  The intended update and slot release are written out so the
guard shows exactly what the enum rejects. -/
def handleRefund (r : RefundEntity) (db : DB) : DB :=
  if statusUpdateValid "refunded" then
    let res := findOneAndUpdate (fun b => b.payment.paymentId == some r.payment_id)
      (refundUpdate r) db.bookings
    match res.2 with
    | some b => { bookings := res.1, slots := updateOneSlot b.slot "available" db.slots }
    | none => { db with bookings := res.1 }
  else db

/-- The schema enum on booking.status rejects the refunded value. -/
lemma statusUpdateValid_refunded : statusUpdateValid "refunded" = false := by
  decide

/-- handleRefund never changes the database: its validated update is always
rejected by the booking status enum. -/
lemma handleRefund_eq_id (r : RefundEntity) (db : DB) :
    handleRefund r db = db := by
  simp [handleRefund, statusUpdateValid_refunded]

/-- A confirmed, completed-payment booking occupying a reserved slot, with a
stored gateway paymentId, as the refund failing input. -/
def bPaid : Booking :=
  { id := "b2", user := "u1", parking := "P", slot := "S",
    startTime := 0, endTime := 3600000, status := "confirmed", amount := 50,
    payment := { method := some "card", status := some "completed",
                 orderId := some "o1", paymentId := some "pay_1" } }

/-- The database holding the refund failing input. -/
def dbPaid : DB := { bookings := [bPaid], slots := [{ id := "S", status := "reserved" }] }

/-- C5: evaluating handleRefund at the failing input: a refund.processed
event for the stored paymentId leaves the database untouched, because the
update writes refunded into booking.status and the schema enum
[pending, confirmed, cancelled, completed, no-show] rejects it under
runValidators; the booking stays confirmed with payment.status completed in
the slot's active set, and even the attempted update document never assigns
payment.status. -/
theorem handleRefund_noop_on_failing_input :
    handleRefund { id := "rf_1", payment_id := "pay_1", status := "processed",
                   created_at := 7 } dbPaid = dbPaid ∧
    dbPaid.bookings.map Booking.status = ["confirmed"] ∧
    dbPaid.slots.map Slot.status = ["reserved"] ∧
    statusUpdateValid "refunded" = false ∧
    (refundUpdate { id := "rf_1", payment_id := "pay_1", status := "processed",
                    created_at := 7 } bPaid).payment.status = some "completed" := by
  refine ⟨handleRefund_eq_id _ _, by decide, by decide, by decide, by decide⟩

/-- findOneAndUpdate on a list split at its first match: everything before
the match is kept, the match is rewritten by f, the tail is untouched. -/
lemma findOneAndUpdate_append (q : Booking → Bool) (f : Booking → Booking)
    (l1 : List Booking) (b : Booking) (l2 : List Booking)
    (h1 : ∀ x ∈ l1, q x = false) (hb : q b = true) :
    findOneAndUpdate q f (l1 ++ b :: l2) = (l1 ++ f b :: l2, some (f b)) := by
  induction l1 with
  | nil => simp [findOneAndUpdate, hb]
  | cons a l ih =>
    have ha : q a = false := h1 a (List.mem_cons_self a l)
    have := ih (fun x hx => h1 x (List.mem_cons_of_mem a hx))
    simp [findOneAndUpdate, ha, this]

/-- C6 (amended): handleFailedPayment never touches the slot entries, and on
the first booking whose stored payment.orderId matches the event it
unconditionally records a failed payment with a failure timestamp and reason
and marks the booking cancelled, whatever the booking status was before — no
pending guard, and no slot release, appears in the source. -/
theorem handleFailedPayment_behavior (p : PaymentEntity) (db : DB) :
    (handleFailedPayment p db).slots = db.slots ∧
    (∀ l1 b l2, db.bookings = l1 ++ b :: l2 →
      (∀ x ∈ l1, (x.payment.orderId == some p.order_id) = false) →
      (b.payment.orderId == some p.order_id) = true →
      (handleFailedPayment p db).bookings = l1 ++ failedUpdate p b :: l2 ∧
      (failedUpdate p b).status = "cancelled" ∧
      (failedUpdate p b).payment.status = some "failed" ∧
      (failedUpdate p b).payment.failedAt = some (p.created_at * 1000) ∧
      (failedUpdate p b).payment.errorMsg =
        some (p.error_description.getD "Payment failed")) := by
  refine ⟨rfl, fun l1 b l2 hsplit h1 hb => ?_⟩
  refine ⟨?_, rfl, rfl, rfl, rfl⟩
  simp [handleFailedPayment, hsplit,
    findOneAndUpdate_append _ (failedUpdate p) l1 b l2 h1 hb]

/-- The failed-payment behaviour instantiated at the confirmed booking
dbPaid: the event matches its stored orderId o1. -/
theorem handleFailedPayment_behavior_witness :
    ((handleFailedPayment { id := "pay_2", order_id := "o1", created_at := 9 }
        dbPaid).slots = dbPaid.slots) ∧
    (dbPaid.bookings = [] ++ bPaid :: [] →
      (∀ x ∈ ([] : List Booking),
        (x.payment.orderId == some "o1") = false) →
      (bPaid.payment.orderId == some "o1") = true →
      (handleFailedPayment { id := "pay_2", order_id := "o1", created_at := 9 }
          dbPaid).bookings =
        [] ++ failedUpdate { id := "pay_2", order_id := "o1", created_at := 9 }
          bPaid :: [] ∧
      (failedUpdate { id := "pay_2", order_id := "o1", created_at := 9 }
        bPaid).status = "cancelled" ∧
      (failedUpdate { id := "pay_2", order_id := "o1", created_at := 9 }
        bPaid).payment.status = some "failed" ∧
      (failedUpdate { id := "pay_2", order_id := "o1", created_at := 9 }
        bPaid).payment.failedAt = some (9 * 1000) ∧
      (failedUpdate { id := "pay_2", order_id := "o1", created_at := 9 }
        bPaid).payment.errorMsg =
        some ((none : Option String).getD "Payment failed")) :=
  ⟨(handleFailedPayment_behavior _ dbPaid).1,
    fun hsplit h1 hb =>
      (handleFailedPayment_behavior
        { id := "pay_2", order_id := "o1", created_at := 9 } dbPaid).2
        [] bPaid [] hsplit h1 hb⟩

/-- C6 (counterexample): a payment.failed event whose orderId matches a
booking that is not pending: the claim says the booking is left unchanged
and the slot is recomputed to available, but the code cancels the confirmed
booking and leaves the slot entry reserved. -/
theorem handleFailedPayment_cancels_confirmed :
    bPaid.status = "confirmed" ∧
    (handleFailedPayment { id := "pay_2", order_id := "o1", created_at := 9 }
        dbPaid).bookings.map Booking.status = ["cancelled"] ∧
    (handleFailedPayment { id := "pay_2", order_id := "o1", created_at := 9 }
        dbPaid).slots.map Slot.status = ["reserved"] := by
  decide

/-- findOneAndUpdate that matches nothing returns the list unchanged. -/
lemma findOneAndUpdate_none (q : Booking → Bool) (f : Booking → Booking)
    (l : List Booking) (h : (findOneAndUpdate q f l).2 = none) :
    (findOneAndUpdate q f l).1 = l := by
  induction l with
  | nil => rfl
  | cons b bs ih =>
    cases hqb : q b with
    | true => simp [findOneAndUpdate, hqb] at h
    | false =>
      simp only [findOneAndUpdate, hqb, Bool.false_eq_true, if_false] at h ⊢
      rw [ih h]

/-- Re-running findOneAndUpdate is the identity when the update function is
idempotent and preserves the match. -/
lemma findOneAndUpdate_idem (q : Booking → Bool) (f : Booking → Booking)
    (hq : ∀ b, q b = true → q (f b) = true)
    (hf : ∀ b, f (f b) = f b) (l : List Booking) :
    findOneAndUpdate q f (findOneAndUpdate q f l).1 = findOneAndUpdate q f l := by
  induction l with
  | nil => rfl
  | cons b bs ih =>
    cases hqb : q b with
    | true => simp [findOneAndUpdate, hqb, hq b hqb, hf b]
    | false => simp [findOneAndUpdate, hqb, ih]

/-- Re-running the positional slot update is the identity. -/
lemma updateOneSlot_idem (slotId newStatus : String) (l : List Slot) :
    updateOneSlot slotId newStatus (updateOneSlot slotId newStatus l) =
      updateOneSlot slotId newStatus l := by
  induction l with
  | nil => rfl
  | cons s ss ih =>
    by_cases hid : s.id = slotId
    · simp [updateOneSlot, hid]
    · simp [updateOneSlot, hid, ih]

/-- Unfolding equation for handleSuccessfulPayment: the enum validation on
the confirmed value passes, so the handler is the match on the
findOneAndUpdate result. -/
lemma handleSuccessfulPayment_eq (p : PaymentEntity) (db : DB) :
    handleSuccessfulPayment p db =
      (match (findOneAndUpdate (fun b => b.payment.orderId == some p.order_id)
          (capturedUpdate p) db.bookings).2 with
       | some b =>
         { bookings := (findOneAndUpdate
             (fun b => b.payment.orderId == some p.order_id)
             (capturedUpdate p) db.bookings).1,
           slots := updateOneSlot b.slot "reserved" db.slots }
       | none =>
         { db with bookings := (findOneAndUpdate
             (fun b => b.payment.orderId == some p.order_id)
             (capturedUpdate p) db.bookings).1 }) := rfl

/-- The bookings component of handleSuccessfulPayment is always the
findOneAndUpdate result. -/
lemma handleSuccessfulPayment_bookings (p : PaymentEntity) (db : DB) :
    (handleSuccessfulPayment p db).bookings =
      (findOneAndUpdate (fun b => b.payment.orderId == some p.order_id)
        (capturedUpdate p) db.bookings).1 := by
  rw [handleSuccessfulPayment_eq]
  cases h : (findOneAndUpdate (fun b => b.payment.orderId == some p.order_id)
      (capturedUpdate p) db.bookings).2 <;> simp [h]

/-- Replaying handleSuccessfulPayment on its own output changes nothing: the
update document writes constants taken from the payload, preserves the
stored orderId the query matches on, and the repeated slot write is the
same positional write. -/
lemma handleSuccessfulPayment_idem (p : PaymentEntity) (db : DB) :
    handleSuccessfulPayment p (handleSuccessfulPayment p db) =
      handleSuccessfulPayment p db := by
  have hq : ∀ b, (b.payment.orderId == some p.order_id) = true →
      ((capturedUpdate p b).payment.orderId == some p.order_id) = true :=
    fun b h => h
  have hf : ∀ b, capturedUpdate p (capturedUpdate p b) = capturedUpdate p b :=
    fun b => rfl
  cases hm : (findOneAndUpdate (fun b => b.payment.orderId == some p.order_id)
      (capturedUpdate p) db.bookings).2 with
  | none =>
    have h1 := findOneAndUpdate_none _ (capturedUpdate p) db.bookings hm
    have hdb : handleSuccessfulPayment p db = db := by
      rw [handleSuccessfulPayment_eq]
      simp only [hm, h1]
    rw [hdb]
    exact hdb
  | some m =>
    have hidem := findOneAndUpdate_idem _ (capturedUpdate p) hq hf db.bookings
    have hb1 : handleSuccessfulPayment p db =
        { bookings := (findOneAndUpdate
            (fun b => b.payment.orderId == some p.order_id)
            (capturedUpdate p) db.bookings).1,
          slots := updateOneSlot m.slot "reserved" db.slots } := by
      rw [handleSuccessfulPayment_eq]
      simp only [hm]
    rw [hb1, handleSuccessfulPayment_eq]
    simp only [hidem, hm, updateOneSlot_idem]

/-- C2 (amended): delivering the same payment.captured webhook payload N
times (N at least 1) has the effect of a single delivery, and that single
delivery turns the first booking matching the stored orderId from pending to
confirmed; calling verify a second time with the same orderId and paymentId,
however, is not free of state change: the code has no already-confirmed
guard, so the retry succeeds, returns the booking still confirmed, and
rewrites payment.paidAt with the retry time, leaving every other field as
the first call left it. -/
theorem webhook_replay_safe_verify_rewrites_paidAt :
    (∀ (p : PaymentEntity) (db : DB) (n : ℕ), 1 ≤ n →
      (handleSuccessfulPayment p)^[n] db = handleSuccessfulPayment p db) ∧
    (∀ (p : PaymentEntity) (db : DB) (l1 : List Booking) (b : Booking)
        (l2 : List Booking), db.bookings = l1 ++ b :: l2 →
      (∀ x ∈ l1, (x.payment.orderId == some p.order_id) = false) →
      (b.payment.orderId == some p.order_id) = true →
      b.status = "pending" →
      (handleSuccessfulPayment p db).bookings =
        l1 ++ capturedUpdate p b :: l2 ∧
      (capturedUpdate p b).status = "confirmed") ∧
    (∀ (hmac : String → String → String) (secret uid role oid pid sig : String)
        (t1 t2 : Int) (b : Booking),
      (b.user = uid ∨ role = "admin") →
      hmac secret (oid ++ "|" ++ pid) = sig →
      (verifyPayment hmac secret uid role oid pid sig t1 b).2.status =
        "confirmed" ∧
      verifyPayment hmac secret uid role oid pid sig t2
          (verifyPayment hmac secret uid role oid pid sig t1 b).2 =
        (none,
          { (verifyPayment hmac secret uid role oid pid sig t1 b).2 with
              payment :=
                { (verifyPayment hmac secret uid role oid pid sig t1
                      b).2.payment with paidAt := some t2 } })) := by
  refine ⟨?_, ?_, ?_⟩
  · intro p db n hn
    induction n with
    | zero => omega
    | succ m ih =>
      rcases Nat.eq_zero_or_pos m with hm | hm
      · subst hm; simp
      · rw [Function.iterate_succ_apply', ih hm,
          handleSuccessfulPayment_idem]
  · intro p db l1 b l2 hsplit h1 hb _
    refine ⟨?_, rfl⟩
    rw [handleSuccessfulPayment_bookings, hsplit,
      findOneAndUpdate_append _ (capturedUpdate p) l1 b l2 h1 hb]
  · intro hmac secret uid role oid pid sig t1 t2 b hauth hs
    constructor
    · simp [verifyPayment, hauth, hs]
    · simp [verifyPayment, hauth, hs]

/-- A pending-booking database for instantiating the replay theorem. -/
def dbPend : DB :=
  { bookings := [bPend], slots := [{ id := "S", status := "available" }] }

/-- The replay and retry theorem instantiated: three deliveries of a
payment.captured payload for the stored orderId o1, and a concrete verify
retry. -/
theorem webhook_replay_safe_verify_rewrites_paidAt_witness :
    ((1 : ℕ) ≤ 3 ∧
      (handleSuccessfulPayment
          { id := "pay_1", order_id := "o1", created_at := 7 })^[3] dbPend =
        handleSuccessfulPayment
          { id := "pay_1", order_id := "o1", created_at := 7 } dbPend) ∧
    ((handleSuccessfulPayment
          { id := "pay_1", order_id := "o1", created_at := 7 } dbPend).bookings =
        [] ++ capturedUpdate
          { id := "pay_1", order_id := "o1", created_at := 7 } bPend :: [] ∧
      (capturedUpdate { id := "pay_1", order_id := "o1", created_at := 7 }
        bPend).status = "confirmed") ∧
    ((verifyPayment idHmac "sec" "u1" "user" "o1" "p1" "o1|p1" 1000
        bPend).2.status = "confirmed" ∧
      verifyPayment idHmac "sec" "u1" "user" "o1" "p1" "o1|p1" 2000
          (verifyPayment idHmac "sec" "u1" "user" "o1" "p1" "o1|p1" 1000
            bPend).2 =
        (none,
          { (verifyPayment idHmac "sec" "u1" "user" "o1" "p1" "o1|p1" 1000
                bPend).2 with
              payment :=
                { (verifyPayment idHmac "sec" "u1" "user" "o1" "p1" "o1|p1"
                      1000 bPend).2.payment with paidAt := some 2000 } })) :=
  ⟨⟨by decide,
      webhook_replay_safe_verify_rewrites_paidAt.1
        { id := "pay_1", order_id := "o1", created_at := 7 } dbPend 3
        (by decide)⟩,
    webhook_replay_safe_verify_rewrites_paidAt.2.1
      { id := "pay_1", order_id := "o1", created_at := 7 } dbPend []
      bPend [] (by decide) (by decide) (by decide) (by decide),
    webhook_replay_safe_verify_rewrites_paidAt.2.2 idHmac "sec" "u1" "user"
      "o1" "p1" "o1|p1" 1000 2000 bPend (by decide) (by decide)⟩

/-- C2 (counterexample): a second verify call with the same orderId and
paymentId at a later time does not leave the booking record unchanged: the
stored paidAt moves from the first call time to the second. -/
theorem verify_retry_changes_booking_record :
    (verifyPayment idHmac "sec" "u1" "user" "o1" "p1" "o1|p1" 2000
        (verifyPayment idHmac "sec" "u1" "user" "o1" "p1" "o1|p1" 1000
          bPend).2).2 ≠
      (verifyPayment idHmac "sec" "u1" "user" "o1" "p1" "o1|p1" 1000
        bPend).2 := by
  decide

/-! ## Admin booking update (admin.controller.js, updateBooking)

The admin endpoint overwrites booking.status with the requested value and,
when cancelling a booking whose payment is completed, stamps refund-request
metadata on the payment sub-record; payment.status itself is never
adjusted. -/

/-- updateBooking: set the status, and flag a refund request when cancelling
a paid booking. -/
def updateBooking (newStatus : String) (now : Int) (b : Booking) : Booking :=
  let b1 := { b with status := newStatus }
  if newStatus = "cancelled" ∧ b.payment.status = some "completed" then
    { b1 with
        payment :=
          { b1.payment with
              refundStatus := some "pending",
              refundRequestedAt := some now } }
  else b1

/-- updateBooking stores exactly the requested status. -/
lemma updateBooking_status (s : String) (now : Int) (b : Booking) :
    (updateBooking s now b).status = s := by
  unfold updateBooking
  by_cases h : s = "cancelled" ∧ b.payment.status = some "completed" <;>
    simp [h]

/-- updateBooking never changes payment.status. -/
lemma updateBooking_payment_status (s : String) (now : Int) (b : Booking) :
    (updateBooking s now b).payment.status = b.payment.status := by
  unfold updateBooking
  by_cases h : s = "cancelled" ∧ b.payment.status = some "completed" <;>
    simp [h]

/-- The payment/booking status invariant of the spec: a completed payment
entails a confirmed or completed booking. -/
def paymentInvariant (b : Booking) : Prop :=
  b.payment.status = some "completed" →
    b.status = "confirmed" ∨ b.status = "completed"

instance (b : Booking) : Decidable (paymentInvariant b) := by
  unfold paymentInvariant; infer_instance

/-- Every booking in a findOneAndUpdate result either was in the input list
or is the update of a booking of the input list. -/
lemma findOneAndUpdate_mem (q : Booking → Bool) (f : Booking → Booking)
    (l : List Booking) :
    ∀ b' ∈ (findOneAndUpdate q f l).1, b' ∈ l ∨ ∃ b ∈ l, b' = f b := by
  induction l with
  | nil => simp [findOneAndUpdate]
  | cons b bs ih =>
    cases hqb : q b with
    | true =>
      intro b' hb'
      simp only [findOneAndUpdate, hqb, if_true, List.mem_cons] at hb'
      rcases hb' with h | h
      · exact Or.inr ⟨b, List.mem_cons_self b bs, h⟩
      · exact Or.inl (List.mem_cons_of_mem b h)
    | false =>
      intro b' hb'
      simp only [findOneAndUpdate, hqb, Bool.false_eq_true, if_false,
        List.mem_cons] at hb'
      rcases hb' with h | h
      · exact Or.inl (h ▸ List.mem_cons_self b bs)
      · rcases ih b' h with h' | ⟨x, hx, hx'⟩
        · exact Or.inl (List.mem_cons_of_mem b h')
        · exact Or.inr ⟨x, List.mem_cons_of_mem b hx, hx'⟩

/-- C4 (amended): verifyPayment and the three webhook handlers preserve the
invariant that a completed payment entails a confirmed or completed booking;
the admin updateBooking preserves it only when the requested status is
confirmed or completed or the payment is not completed — cancelling a paid
booking through it leaves payment.status completed with a cancelled booking,
so the claimed preservation by every operation fails. -/
theorem payment_invariant_preservation :
    (∀ (hmac : String → String → String) (secret uid role oid pid sig : String)
        (now : Int) (b : Booking), paymentInvariant b →
      paymentInvariant (verifyPayment hmac secret uid role oid pid sig now b).2) ∧
    (∀ (p : PaymentEntity) (db : DB), (∀ b ∈ db.bookings, paymentInvariant b) →
      ∀ b ∈ (handleSuccessfulPayment p db).bookings, paymentInvariant b) ∧
    (∀ (p : PaymentEntity) (db : DB), (∀ b ∈ db.bookings, paymentInvariant b) →
      ∀ b ∈ (handleFailedPayment p db).bookings, paymentInvariant b) ∧
    (∀ (r : RefundEntity) (db : DB), (∀ b ∈ db.bookings, paymentInvariant b) →
      ∀ b ∈ (handleRefund r db).bookings, paymentInvariant b) ∧
    (∀ (s : String) (now : Int) (b : Booking), paymentInvariant b →
      (s = "confirmed" ∨ s = "completed" ∨ b.payment.status ≠ some "completed") →
      paymentInvariant (updateBooking s now b)) := by
  refine ⟨?_, ?_, ?_, ?_, ?_⟩
  · intro hmac secret uid role oid pid sig now b hinv
    by_cases ha : b.user = uid ∨ role = "admin"
    · by_cases hsg : hmac secret (oid ++ "|" ++ pid) = sig
      · intro _
        left
        simp [verifyPayment, ha, hsg]
      · simpa [verifyPayment, ha, hsg] using hinv
    · simpa [verifyPayment, ha] using hinv
  · intro p db hinv b hb
    rw [handleSuccessfulPayment_bookings] at hb
    rcases findOneAndUpdate_mem _ (capturedUpdate p) db.bookings b hb with
      h | ⟨x, _, hx⟩
    · exact hinv b h
    · subst hx
      intro _
      left
      rfl
  · intro p db hinv b hb
    simp only [handleFailedPayment] at hb
    rcases findOneAndUpdate_mem _ (failedUpdate p) db.bookings b hb with
      h | ⟨x, _, hx⟩
    · exact hinv b h
    · subst hx
      intro hc
      exact absurd hc (by simp [failedUpdate])
  · intro r db hinv b hb
    rw [handleRefund_eq_id] at hb
    exact hinv b hb
  · intro s now b hinv hcond hc
    rw [updateBooking_payment_status] at hc
    rw [updateBooking_status]
    rcases hcond with h | h | h
    · exact Or.inl h
    · exact Or.inr h
    · exact absurd hc h

/-- The preservation theorem instantiated: an admin update to confirmed on
the paid booking keeps the invariant. -/
theorem payment_invariant_preservation_witness :
    paymentInvariant bPaid ∧
    ("confirmed" = "confirmed" ∨ "confirmed" = "completed" ∨
      bPaid.payment.status ≠ some "completed") ∧
    paymentInvariant (updateBooking "confirmed" 0 bPaid) :=
  ⟨by decide, by decide,
    payment_invariant_preservation.2.2.2.2 "confirmed" 0 bPaid (by decide)
      (by decide)⟩

/-- C4 (counterexample): the admin update endpoint cancelling the paid
confirmed booking produces a state where the payment is completed but the
booking is cancelled — the invariant does not survive every defined
operation. -/
theorem adminUpdate_breaks_payment_invariant :
    paymentInvariant bPaid ∧
    ¬paymentInvariant (updateBooking "cancelled" 0 bPaid) ∧
    (updateBooking "cancelled" 0 bPaid).status = "cancelled" ∧
    (updateBooking "cancelled" 0 bPaid).payment.status = some "completed" := by
  refine ⟨by decide, ?_, by decide, by decide⟩
  intro h
  have := h (by decide)
  revert this
  decide

/-! ## canBeCancelled (booking.model.js)

The instance method computes the hours until start as a real-number division
of the millisecond difference, and allows cancellation only for a confirmed
booking more than one hour before start.  The floating-point division is
modelled with exact rationals. -/

/-- Booking.canBeCancelled at the given current time (ms). -/
def canBeCancelled (b : Booking) (now : Int) : Bool :=
  decide (b.status = "confirmed" ∧
    ((b.startTime - now : Int) : ℚ) / (1000 * 60 * 60) > 1)

/-- Cancellation permission as the claim words it: allowed for pending or
confirmed bookings, and for confirmed ones only more than the grace window
before start.  Stated from the claim for comparison with canBeCancelled. -/
def claimCancelAllowed (b : Booking) (now graceMs : Int) : Bool :=
  decide ((b.status = "pending" ∨ b.status = "confirmed") ∧
    (b.status = "confirmed" → b.startTime - now > graceMs))

/-- C7 (amended): the code permits cancellation exactly when the booking is
confirmed and the current time is more than one hour (3600000 ms) before
startTime; a pending booking is never cancellable through this check.  The
spec examples follow: a confirmed booking 30 minutes out fails, one 2 hours
out passes. -/
theorem canBeCancelled_iff (b : Booking) (now : Int) :
    canBeCancelled b now = true ↔
      b.status = "confirmed" ∧ b.startTime - now > 3600000 := by
  unfold canBeCancelled
  rw [decide_eq_true_iff]
  apply and_congr_right
  intro _
  rw [gt_iff_lt, lt_div_iff₀ (by norm_num : (0 : ℚ) < 1000 * 60 * 60), one_mul]
  constructor
  · intro h
    exact_mod_cast h
  · intro h
    exact_mod_cast h

/-- C7 (counterexample): a pending booking starting two hours from now — the
claim permits its cancellation (status pending, window open), but
canBeCancelled returns false for every non-confirmed booking. -/
theorem canBeCancelled_rejects_pending :
    bPend.status = "pending" ∧
    claimCancelAllowed bPend (-7200000) 3600000 = true ∧
    canBeCancelled bPend (-7200000) = false := by
  decide

/-! ## Facility availability counter (parking.model.js)

The pre-save hook stores the count of slots whose status is available or
reserved; the post-save hook immediately calls calcAvailableSlots, which
recomputes the counter as the count of slots whose status is exactly
available and persists that value. -/

/-- A parking document reduced to the fields the hooks touch. -/
structure ParkingDoc where
  slots : List Slot
  availableSlots : Nat
  deriving Repr, DecidableEq

/-- The pre-save hook: availableSlots := count of available or reserved. -/
def preSaveHook (p : ParkingDoc) : ParkingDoc :=
  { p with
      availableSlots := (p.slots.filter
        (fun s => s.status == "available" || s.status == "reserved")).length }

/-- Parking.calcAvailableSlots: the aggregation counts slots whose status
equals available, only. -/
def calcAvailableSlots (slots : List Slot) : Nat :=
  (slots.filter (fun s => s.status == "available")).length

/-- The post-save hook: persist the calcAvailableSlots projection. -/
def postSaveHook (p : ParkingDoc) : ParkingDoc :=
  { p with availableSlots := calcAvailableSlots p.slots }

/-- A facility save runs the pre-save hook, persists, then the post-save
hook recomputes the counter. -/
def saveParking (p : ParkingDoc) : ParkingDoc :=
  postSaveHook (preSaveHook p)

/-- C8 (amended): after a facility save, the stored availableSlots equals
the count of slots whose status is exactly available — the pre-save hook
briefly stores the available-or-reserved count, but the post-save hook
overwrites it with the available-only projection. -/
theorem saveParking_counts_available_only (p : ParkingDoc) :
    (saveParking p).availableSlots = calcAvailableSlots p.slots ∧
    (saveParking p).slots = p.slots ∧
    (preSaveHook p).availableSlots = (p.slots.filter
      (fun s => s.status == "available" || s.status == "reserved")).length :=
  ⟨rfl, rfl, rfl⟩

/-- A facility whose single slot is reserved. -/
def pOneReserved : ParkingDoc :=
  { slots := [{ id := "s1", status := "reserved" }], availableSlots := 5 }

/-- C8 (counterexample): on a facility with one reserved slot, the counter
after a save is 0, while the count of available-or-reserved slots is 1. -/
theorem saveParking_counter_not_or_reserved :
    (saveParking pOneReserved).availableSlots = 0 ∧
    (pOneReserved.slots.filter
      (fun s => s.status == "available" || s.status == "reserved")).length = 1 := by
  decide

/-! ## Webhook endpoint (payment.controller.js, webhook)

The endpoint recomputes the webhook HMAC over the raw body, answers 400 on
mismatch (the repository test expects 401), dispatches the three known
events, logs and ignores anything else, and answers 200 whenever the
signature matched — the handlers swallow their own errors. -/

/-- The webhook endpoint: status code and resulting database.  The event and
the two gateway entities are the parsed fields of the raw body the signature
covers. -/
def webhook (hmac : String → String → String)
    (whSecret sigHeader rawBody event : String)
    (pEnt : PaymentEntity) (rEnt : RefundEntity) (db : DB) : Nat × DB :=
  if hmac whSecret rawBody ≠ sigHeader then (400, db)
  else
    match event with
    | "payment.captured" => (200, handleSuccessfulPayment pEnt db)
    | "payment.failed" => (200, handleFailedPayment pEnt db)
    | "refund.processed" => (200, handleRefund rEnt db)
    | _ => (200, db)

/-- C9: evaluating the endpoint at the failing input: a mismatched gateway
signature is answered with status 400, not the 401 the claim (and the
repository's own payment test) requires; an unknown event type with a valid
signature is answered 200 with the database unchanged, as the claim says. -/
theorem webhook_mismatch_returns_400 :
    (webhook idHmac "wh" "badsig" "rawbody" "payment.captured"
        { id := "pay_1", order_id := "o1", created_at := 7 }
        { id := "rf_1", payment_id := "pay_1", status := "processed",
          created_at := 7 } dbPaid).1 = 400 ∧
    (webhook idHmac "wh" "badsig" "rawbody" "payment.captured"
        { id := "pay_1", order_id := "o1", created_at := 7 }
        { id := "rf_1", payment_id := "pay_1", status := "processed",
          created_at := 7 } dbPaid).1 ≠ 401 ∧
    webhook idHmac "wh" "rawbody" "rawbody" "unknown.event"
        { id := "pay_1", order_id := "o1", created_at := 7 }
        { id := "rf_1", payment_id := "pay_1", status := "processed",
          created_at := 7 } dbPaid = (200, dbPaid) := by
  decide

/-! ## createPaymentOrder (payment.controller.js)

The controller checks ownership and the pending status, creates the gateway
order, and then overwrites the whole payment sub-record with the four-field
object orderId / status / amount / currency before saving. -/

/-- createPaymentOrder: the gateway result is passed in (none models a
gateway failure); on success the payment sub-record is replaced wholesale. -/
def createPaymentOrder (uid role : String) (amount : Int) (currency : String)
    (gatewayOrder : Option String) (b : Booking) : Option String × Booking :=
  if ¬(b.user = uid ∨ role = "admin") then
    (some "You are not authorized to pay for this booking", b)
  else if b.status ≠ "pending" then
    (some "This booking has already been paid for or cancelled", b)
  else
    match gatewayOrder with
    | none => (some "Error creating payment order. Please try again.", b)
    | some oid =>
      (none,
        { b with
            payment :=
              { orderId := some oid, status := some "pending",
                amount := some amount, currency := some currency } })

/-- C10: a successful createPaymentOrder replaces the booking's whole
payment sub-record with exactly the four-field object orderId / pending
status / amount / currency: whatever method, transactionId or other payment
fields were stored before are discarded, and no other field is present
afterwards. -/
theorem createPaymentOrder_replaces_payment (uid role : String) (amt : Int)
    (cur oid : String) (b : Booking)
    (h : (createPaymentOrder uid role amt cur (some oid) b).1 = none) :
    (createPaymentOrder uid role amt cur (some oid) b).2.payment =
      { orderId := some oid, status := some "pending",
        amount := some amt, currency := some cur } ∧
    (createPaymentOrder uid role amt cur (some oid) b).2.payment.method =
      none ∧
    (createPaymentOrder uid role amt cur (some oid) b).2.payment.transactionId =
      none := by
  by_cases ha : b.user = uid ∨ role = "admin"
  · by_cases hp : b.status = "pending"
    · refine ⟨?_, ?_, ?_⟩ <;> simp [createPaymentOrder, ha, hp]
    · simp [createPaymentOrder, ha, hp] at h
  · simp [createPaymentOrder, ha] at h

/-- The replacement theorem instantiated on a pending booking whose payment
record carries a method and an old orderId. -/
theorem createPaymentOrder_replaces_payment_witness :
    ((createPaymentOrder "u1" "user" 50 "INR" (some "order_abc") bPend).1 =
      none) ∧
    ((createPaymentOrder "u1" "user" 50 "INR" (some "order_abc")
        bPend).2.payment =
      { orderId := some "order_abc", status := some "pending",
        amount := some 50, currency := some "INR" } ∧
    (createPaymentOrder "u1" "user" 50 "INR" (some "order_abc")
        bPend).2.payment.method = none ∧
    (createPaymentOrder "u1" "user" 50 "INR" (some "order_abc")
        bPend).2.payment.transactionId = none) :=
  ⟨by decide,
    createPaymentOrder_replaces_payment "u1" "user" 50 "INR" "order_abc"
      bPend (by decide)⟩

end ParkEase
